import Mathlib

/-!
Verification of the Tankerkönig Home Assistant integration.

The repository ships two variants of the same sensor:
* `custom_components/tankerkoenig/sensor.py` (the `CC` variant below), which
  fetches the station list itself with `requests` in
  `TankerkoenigApi.get_stations` and processes it in
  `TankerkoenigSensor.update`;
* `sensor.py` at the top level (the `Root` variant below), which obtains the
  raw response text through Home Assistant's `RestData` helper, parses it with
  `json.loads`, and additionally checks the `"ok"` envelope flag.

Python values flowing through the code are modelled by the `Json` type (the
image of `json.loads`, with Python `None` identified with JSON `null`), Python
exceptions by `PyErr`, and `logging` calls by an explicit list of emitted
messages.  Rational numbers stand in for the JSON numerics.
-/

/-- A value as produced by `json.loads` / `response.json()`.  Python's `None`
is identified with `Json.null` (which is exactly what `json.loads` produces
for JSON `null`). -/
inductive Json where
  | null : Json
  | bool (b : Bool) : Json
  | num (q : ℚ) : Json
  | str (s : String) : Json
  | arr (elems : List Json) : Json
  | obj (members : List (String × Json)) : Json

/-- The Python exceptions that the modelled code can raise. -/
inductive PyErr where
  | keyError
  | typeError
  | indexError
  | attributeError
  deriving DecidableEq

/-- Levels of the Python `logging` calls appearing in the two sensor files. -/
inductive LogLevel where
  | error
  | warning
  | debug
  deriving DecidableEq

/-- One emitted log record: level and (un-interpolated) message template. -/
structure LogMsg where
  level : LogLevel
  msg : String
  deriving DecidableEq

/-- Python truthiness (`if x:`) of a `Json` value, as used by
`if result:` and `if stations:` in both `update` methods. -/
def truthy : Json → Bool
  | .null => false
  | .bool b => b
  | .num q => q != 0
  | .str s => s != ""
  | .arr elems => !elems.isEmpty
  | .obj members => !members.isEmpty

/-- First-match lookup in a JSON object's member list (Python `dict` lookup;
`json.loads` produces unique keys). -/
def lookupMember : List (String × Json) → String → Option Json
  | [], _ => none
  | (k, v) :: rest, key => if k = key then some v else lookupMember rest key

/-- Python subscription `x["key"]` with a string key: succeeds on a dict
containing the key, raises `KeyError` on a dict without it, and raises
`TypeError` on every non-dict value. -/
def pyIndexStr : Json → String → Except PyErr Json
  | .obj members, key =>
    match lookupMember members key with
    | some v => .ok v
    | none => .error .keyError
  | _, _ => .error .typeError

/-- Python subscription `x[i]` with a non-negative integer: list indexing
(`IndexError` when out of range), string indexing (a one-character string,
`IndexError` when out of range), `KeyError` on a string-keyed dict, and
`TypeError` on the remaining values. -/
def pyIndexNat : Json → Nat → Except PyErr Json
  | .arr elems, i =>
    match elems.get? i with
    | some v => .ok v
    | none => .error .indexError
  | .str s, i =>
    match s.data.get? i with
    | some c => .ok (.str ⟨[c]⟩)
    | none => .error .indexError
  | .obj _, _ => .error .keyError
  | _, _ => .error .typeError

/-- Is a character cased, per CPython's `str.title` bookkeeping
(`Py_UNICODE_ISLOWER || Py_UNICODE_ISUPPER || Py_UNICODE_ISTITLE`)?  The
Unicode character data is carried for the ASCII range (cased exactly on
`A`-`Z`/`a`-`z`) and for the non-ASCII characters this development
exercises: `İ` (U+0130), `ß`, `ö`, `Ö` are cased, while the combining dot
above U+0307 — produced by lowercasing `İ` — is not.  Characters outside
this repertoire are treated as uncased. -/
def pyCased (c : Char) : Bool :=
  if c.toNat ≤ 127 then
    decide ((65 ≤ c.toNat ∧ c.toNat ≤ 90) ∨ (97 ≤ c.toNat ∧ c.toNat ≤ 122))
  else
    c = 'İ' || c = 'ß' || c = 'ö' || c = 'Ö'

/-- The full titlecase mapping used by CPython's `str.title` for a character
starting a word: single-character uppercasing on ASCII, and the Unicode
full mappings for the modelled non-ASCII repertoire (`ß` title-expands to
`Ss`; `İ` and U+0307 map to themselves).  Characters outside the repertoire
are carried through unchanged. -/
def titleFull (c : Char) : List Char :=
  if c.toNat ≤ 127 then [c.toUpper]
  else if c = 'İ' then ['İ']
  else if c = 'ß' then ['S', 's']
  else if c = 'ö' then ['Ö']
  else if c = 'Ö' then ['Ö']
  else [c]

/-- The full lowercase mapping used by CPython's `str.title` for a character
inside a word: single-character lowercasing on ASCII, and the Unicode full
mappings for the modelled non-ASCII repertoire — in particular `İ`
lowercases to `i` followed by the combining dot above U+0307.  Characters
outside the repertoire are carried through unchanged. -/
def lowerFull (c : Char) : List Char :=
  if c.toNat ≤ 127 then [c.toLower]
  else if c = 'İ' then ['i', Char.ofNat 775]
  else if c = 'Ö' then ['ö']
  else [c]

/-- Character-list worker for Python `str.title()`: a character following a
cased character takes its full lowercase mapping, every other character its
full titlecase mapping, and the cased-ness of the original character is
carried to the next position. -/
def titleMap : Bool → List Char → List Char
  | _, [] => []
  | prevCased, c :: rest =>
    (if prevCased then lowerFull c else titleFull c) ++ titleMap (pyCased c) rest

/-- Python `str.title()`: `"aral".title() = "Aral"`,
`"hauptstrasse 12b".title() = "Hauptstrasse 12B"`,
`"AİB".title() = "Ai" + U+0307 + "b"`. -/
def title (s : String) : String := ⟨titleMap false s.data⟩

/-- Python attribute call `x.title()`: only strings have `.title`; every
other value raises `AttributeError`. -/
def pyTitle : Json → Except PyErr Json
  | .str s => .ok (.str (title s))
  | _ => .error .attributeError

/-- Python `+` as used in `street.title() + houseNumber`: string
concatenation when both operands are strings, `TypeError` otherwise. -/
def pyAdd : Json → Json → Except PyErr Json
  | .str a, .str b => .ok (.str (a ++ b))
  | _, _ => .error .typeError

/-- `ATTRIBUTION = "Data provided by Tankerkönig"` (both variants). -/
def ATTRIBUTION : String := "Data provided by Tankerkönig"

/-- The sensor's mutable reading: `self._state` (initially `None`, hence
`Json.null`) and `self._attributes` (an insertion-ordered dict, modelled as
an association list). -/
structure SensorState where
  state : Json
  attributes : List (String × Json)

/-- The reading after `self._state = None; self._attributes = {}`. -/
def cleared : SensorState := { state := .null, attributes := [] }

/-- `stations[0][key]`: index the station list at 0, then at the string key. -/
def station0Field (stations : Json) (key : String) : Except PyErr Json :=
  (pyIndexNat stations 0).bind fun st => pyIndexStr st key

/-- The population block shared verbatim by both `update` methods:

```
self._state = stations[0]["price"]
self._attributes[ATTR_BRAND] = stations[0]["brand"].title()
self._attributes[ATTR_ADDRESS] = stations[0]["street"].title() + stations[0]["houseNumber"]
self._attributes[ATTR_STATUS] = "open" if stations[0]["isOpen"] else "closed"
self._attributes[ATTR_LATITUDE] = stations[0]["lat"]
self._attributes[ATTR_LONGITUDE] = stations[0]["lng"]
self._attributes[ATTR_ATTRIBUTION] = ATTRIBUTION
```

Each line evaluates its right-hand side first; an exception aborts the block,
leaving the assignments made so far in place (second component `some e`). -/
def populate (stations : Json) : SensorState × Option PyErr :=
  match station0Field stations "price" with
  | .error e => ({ state := .null, attributes := [] }, some e)
  | .ok price =>
    match (station0Field stations "brand").bind pyTitle with
    | .error e => ({ state := price, attributes := [] }, some e)
    | .ok brandVal =>
      match (station0Field stations "street").bind pyTitle with
      | .error e => ({ state := price, attributes := [("brand", brandVal)] }, some e)
      | .ok streetVal =>
        match station0Field stations "houseNumber" with
        | .error e => ({ state := price, attributes := [("brand", brandVal)] }, some e)
        | .ok houseVal =>
          match pyAdd streetVal houseVal with
          | .error e => ({ state := price, attributes := [("brand", brandVal)] }, some e)
          | .ok addressVal =>
            match station0Field stations "isOpen" with
            | .error e =>
              ({ state := price,
                 attributes := [("brand", brandVal), ("address", addressVal)] }, some e)
            | .ok openFlag =>
              let statusVal := Json.str (if truthy openFlag then "open" else "closed")
              match station0Field stations "lat" with
              | .error e =>
                ({ state := price,
                   attributes := [("brand", brandVal), ("address", addressVal),
                                  ("status", statusVal)] }, some e)
              | .ok latVal =>
                match station0Field stations "lng" with
                | .error e =>
                  ({ state := price,
                     attributes := [("brand", brandVal), ("address", addressVal),
                                    ("status", statusVal), ("latitude", latVal)] }, some e)
                | .ok lngVal =>
                  ({ state := price,
                     attributes := [("brand", brandVal), ("address", addressVal),
                                    ("status", statusVal), ("latitude", latVal),
                                    ("longitude", lngVal),
                                    ("attribution", Json.str ATTRIBUTION)] }, none)

/-- The observable outcome of one `update` execution: the sensor reading left
behind, the log records emitted, and the exception propagated to the caller
(if any). -/
structure UpdateOutcome where
  sensor : SensorState
  logs : List LogMsg
  err : Option PyErr

/-- `TankerkoenigSensor.update` of the `custom_components` variant, as a
function of the fetch result (`Json.null` both for a `None` returned by
`get_stations` and for a JSON `null` body).  The `try`/`except KeyError`
around `result["stations"]` catches only `KeyError`; a `TypeError` from
subscribing a non-dict propagates.  Exceptions raised while populating from
`stations[0]` propagate as well. -/
def updateCC (result : Json) : UpdateOutcome :=
  if truthy result then
    match pyIndexStr result "stations" with
    | .ok stations =>
      if truthy stations then
        let p := populate stations
        { sensor := p.1, logs := [], err := p.2 }
      else
        { sensor := cleared, logs := [], err := none }
    | .error .keyError =>
      { sensor := cleared,
        logs := [⟨.error, "Erroneous result found when expecting list of stations: %s"⟩],
        err := none }
    | .error e => { sensor := cleared, logs := [], err := some e }
  else
    { sensor := cleared,
      logs := [⟨.error, "Empty result found when expecting list of stations"⟩],
      err := none }

/-- The outcome of the network interaction observed by
`TankerkoenigApi.get_stations`: either `requests.get` raises a
`RequestException` (connection error, timeout, too many redirects, ...), or a
response arrives carrying an HTTP status code and a body whose JSON parse
either succeeds or raises `ValueError`. -/
inductive HttpOutcome where
  | transportError
  | response (status : Nat) (body : Except Unit Json)

/-- `TankerkoenigApi.get_stations`: `response.raise_for_status()` raises
`requests.HTTPError` (a `RequestException`) exactly for client-error and
server-error status codes, 400–599, per the `requests` library; that and any
transport failure are caught and logged, as is a `ValueError` from
`response.json()`.  The method returns the parsed body on success and `None`
(modelled `Json.null`) on every failure; no exception escapes. -/
def get_stations (o : HttpOutcome) : Json × List LogMsg :=
  match o with
  | .transportError => (.null, [⟨.error, "Error fetching data: %s failed with %s"⟩])
  | .response status body =>
    if 400 ≤ status ∧ status < 600 then
      (.null, [⟨.error, "Error fetching data: %s failed with %s"⟩])
    else
      match body with
      | .error _ => (.null, [⟨.error, "Error parsing data: %s failed with %s"⟩])
      | .ok j => (j, [])

/-- One full update cycle of the `custom_components` variant:
`get_stations` followed by the `update` body processing its result. -/
def updateCycleCC (net : HttpOutcome) : UpdateOutcome :=
  let fetched := get_stations net
  let u := updateCC fetched.1
  { sensor := u.sensor, logs := fetched.2 ++ u.logs, err := u.err }

/-- The full `TankerkoenigSensor` object of the `custom_components` variant:
configuration fixed at construction (`self._api` holding the api key,
`self._name`, `self._latitude`, `self._longitude`, `self._radius`,
`self._fuel_type`) together with the mutable reading. -/
structure TankerkoenigSensor where
  api_key : String
  name : String
  latitude : ℚ
  longitude : ℚ
  radius : ℚ
  fuel_type : String
  state : Json
  attributes : List (String × Json)

/-- The method `update` on the sensor object: only `self._state` and
`self._attributes` are assigned; every configuration field is left alone. -/
def TankerkoenigSensor.update (s : TankerkoenigSensor) (net : HttpOutcome) :
    TankerkoenigSensor × List LogMsg × Option PyErr :=
  let u := updateCycleCC net
  ({ s with state := u.sensor.state, attributes := u.sensor.attributes }, u.logs, u.err)

/-- The `icon` property: always `ICON = "mdi:gas-station"`. -/
def TankerkoenigSensor.icon (_ : TankerkoenigSensor) : String := "mdi:gas-station"

/-- The `device_class` property: always `SensorDeviceClass.MONETARY`. -/
def TankerkoenigSensor.device_class (_ : TankerkoenigSensor) : String := "monetary"

/-- The `unit_of_measurement` property: always `CURRENCY_EURO`. -/
def TankerkoenigSensor.unit_of_measurement (_ : TankerkoenigSensor) : String := "€"

/-- What `RestData` hands to the `Root` variant's `update`: `rest.data` is
either `None` (`absent`) or the raw response text, and `json.loads raw`
either succeeds with a `Json` value or raises `ValueError`. -/
inductive RestResult where
  | absent
  | text (raw : String) (parsed : Except Unit Json)

/-- `TankerkoenigSensor.update` of the top-level `sensor.py` variant.  The
`try` block parses the text, reads the `"ok"` envelope flag, and reads
`"stations"` only under a truthy `"ok"`; its `except` clause catches only
`ValueError`, so a `KeyError`/`TypeError` from either subscription
propagates.  An absent or empty reply is logged at warning level. -/
def updateRoot (r : RestResult) : UpdateOutcome :=
  match r with
  | .absent =>
    { sensor := cleared,
      logs := [⟨.warning, "Empty reply found when expecting JSON data"⟩], err := none }
  | .text raw parsed =>
    if raw = "" then
      { sensor := cleared,
        logs := [⟨.warning, "Empty reply found when expecting JSON data"⟩], err := none }
    else
      match parsed with
      | .error _ =>
        { sensor := cleared,
          logs := [⟨.warning, "REST result could not be parsed as JSON"⟩,
                   ⟨.debug, "Erroneous JSON: %s"⟩],
          err := none }
      | .ok jsonResult =>
        match pyIndexStr jsonResult "ok" with
        | .error e => { sensor := cleared, logs := [], err := some e }
        | .ok okFlag =>
          if truthy okFlag then
            match pyIndexStr jsonResult "stations" with
            | .error e => { sensor := cleared, logs := [], err := some e }
            | .ok stations =>
              if truthy stations then
                let p := populate stations
                { sensor := p.1, logs := [⟨.debug, "Received stations: %s"⟩], err := p.2 }
              else
                { sensor := cleared, logs := [⟨.debug, "Received stations: %s"⟩], err := none }
          else
            { sensor := cleared, logs := [], err := none }

/-- Modelled from the spec: `homeassistant.util.Throttle` is host code absent
from `src/`; the spec describes it as "store last-execution timestamp; on
call, compare against now; skip network work and return cached state if
within the window".  `MIN_TIME_BETWEEN_UPDATES = timedelta(minutes=10)`,
i.e. 600 seconds. -/
def MIN_TIME_BETWEEN_UPDATES : Nat := 600

/-- A sensor reading together with the throttle's last-execution timestamp
(in seconds; `none` before the first call). -/
structure ThrottleState where
  lastCall : Option Nat
  sensor : SensorState

/-- Modelled from the spec: the throttled `update`.  Within
`MIN_TIME_BETWEEN_UPDATES` of the previous execution the call is an
idempotent no-op (no fetch, state returned unchanged); otherwise the update
body runs on the fetch result and the timestamp is recorded.  The boolean
reports whether the body (and hence the network fetch) ran. -/
def throttledUpdate (now : Nat) (result : Json) (s : ThrottleState) : ThrottleState × Bool :=
  match s.lastCall with
  | some t =>
    if now - t < MIN_TIME_BETWEEN_UPDATES then (s, false)
    else ({ lastCall := some now, sensor := (updateCC result).sensor }, true)
  | none => ({ lastCall := some now, sensor := (updateCC result).sensor }, true)

/-- The fixed Tankerkönig list endpoint. -/
def listEndpoint : String := "https://creativecommons.tankerkoenig.de/json/list.php"

/-- The request URL built by `get_stations`' f-string, as a function of the
already-rendered parameter texts. -/
def resource (apikey lat lng rad fuelType : String) : String :=
  listEndpoint ++ "?apikey=" ++ apikey ++ "&lat=" ++ lat ++ "&lng=" ++ lng
    ++ "&rad=" ++ rad ++ "&type=" ++ fuelType ++ "&sort=price"

/-- An outbound HTTP request as issued by
`requests.get(resource, verify=True, timeout=10)`. -/
structure HttpRequest where
  method : String
  url : String
  verify : Bool
  timeoutSeconds : Nat

/-- The request `get_stations` issues. -/
def get_stations_request (apikey lat lng rad fuelType : String) : HttpRequest :=
  { method := "GET"
    url := resource apikey lat lng rad fuelType
    verify := true
    timeoutSeconds := 10 }

/-- Split a character list at every occurrence of `sep` (used to read a query
string back out of a URL; the result always has one more group than there
are separators). -/
def splitOnChar (sep : Char) : List Char → List (List Char)
  | [] => [[]]
  | c :: rest =>
    match splitOnChar sep rest with
    | [] => [[c]]
    | group :: groups =>
      if c = sep then [] :: group :: groups else (c :: group) :: groups

/-- The key-value pairs of a URL's query string: the part after `?`, split at
`&`, each parameter split at `=`. -/
def queryParams (url : String) : List (String × String) :=
  match splitOnChar '?' url.data with
  | [_, query] =>
    (splitOnChar '&' query).map fun param =>
      match splitOnChar '=' param with
      | [k, v] => (⟨k⟩, ⟨v⟩)
      | _ => ("", "")
  | _ => []

/-- The part of a URL before its `?` (the endpoint the request is addressed
to). -/
def urlPath (url : String) : String :=
  match splitOnChar '?' url.data with
  | [p, _] => ⟨p⟩
  | _ => url

/-! ## Helper lemmas -/

theorem charToNat_ofNat_of_valid {n : Nat} (h : n.isValidChar) : (Char.ofNat n).toNat = n := by
  simp [Char.ofNat, dif_pos h, Char.ofNatAux, Char.toNat]
  rfl

theorem toUpper_toNat (c : Char) (h : 97 ≤ c.toNat ∧ c.toNat ≤ 122) :
    (Char.toUpper c).toNat = c.toNat - 32 := by
  unfold Char.toUpper
  rw [if_pos h]
  exact charToNat_ofNat_of_valid (Or.inl (by omega))

theorem toUpper_eq_self (c : Char) (h : ¬(97 ≤ c.toNat ∧ c.toNat ≤ 122)) :
    Char.toUpper c = c := by
  unfold Char.toUpper
  rw [if_neg h]

theorem toLower_toNat (c : Char) (h : 65 ≤ c.toNat ∧ c.toNat ≤ 90) :
    (Char.toLower c).toNat = c.toNat + 32 := by
  unfold Char.toLower
  rw [if_pos h]
  exact charToNat_ofNat_of_valid (Or.inl (by omega))

theorem toLower_eq_self (c : Char) (h : ¬(65 ≤ c.toNat ∧ c.toNat ≤ 90)) :
    Char.toLower c = c := by
  unfold Char.toLower
  rw [if_neg h]

theorem toUpper_idem (c : Char) : (Char.toUpper c).toUpper = Char.toUpper c := by
  by_cases h : 97 ≤ c.toNat ∧ c.toNat ≤ 122
  · have h1 := toUpper_toNat c h
    apply toUpper_eq_self
    omega
  · rw [toUpper_eq_self c h]
    exact toUpper_eq_self c h

theorem toLower_idem (c : Char) : (Char.toLower c).toLower = Char.toLower c := by
  by_cases h : 65 ≤ c.toNat ∧ c.toNat ≤ 90
  · have h1 := toLower_toNat c h
    apply toLower_eq_self
    omega
  · rw [toLower_eq_self c h]
    exact toLower_eq_self c h

theorem toUpper_ascii (c : Char) (h : c.toNat ≤ 127) : (Char.toUpper c).toNat ≤ 127 := by
  by_cases hg : 97 ≤ c.toNat ∧ c.toNat ≤ 122
  · have h1 := toUpper_toNat c hg
    omega
  · rw [toUpper_eq_self c hg]
    exact h

theorem toLower_ascii (c : Char) (h : c.toNat ≤ 127) : (Char.toLower c).toNat ≤ 127 := by
  by_cases hg : 65 ≤ c.toNat ∧ c.toNat ≤ 90
  · have h1 := toLower_toNat c hg
    omega
  · rw [toLower_eq_self c hg]
    exact h

theorem pyCased_toUpper (c : Char) : pyCased (Char.toUpper c) = pyCased c := by
  by_cases h : 97 ≤ c.toNat ∧ c.toNat ≤ 122
  · have h1 := toUpper_toNat c h
    rw [pyCased, pyCased, if_pos (by omega), if_pos (by omega)]
    simp only [decide_eq_decide]
    omega
  · rw [toUpper_eq_self c h]

theorem pyCased_toLower (c : Char) : pyCased (Char.toLower c) = pyCased c := by
  by_cases h : 65 ≤ c.toNat ∧ c.toNat ≤ 90
  · have h1 := toLower_toNat c h
    rw [pyCased, pyCased, if_pos (by omega), if_pos (by omega)]
    simp only [decide_eq_decide]
    omega
  · rw [toLower_eq_self c h]

theorem titleFull_ascii (c : Char) (h : c.toNat ≤ 127) : titleFull c = [c.toUpper] := by
  rw [titleFull, if_pos h]

theorem lowerFull_ascii (c : Char) (h : c.toNat ≤ 127) : lowerFull c = [c.toLower] := by
  rw [lowerFull, if_pos h]

theorem titleMap_idem_ascii (l : List Char) (hl : ∀ c ∈ l, c.toNat ≤ 127) :
    ∀ b : Bool, titleMap b (titleMap b l) = titleMap b l := by
  induction l with
  | nil => intro b; rfl
  | cons c rest ih =>
    have hc : c.toNat ≤ 127 := hl c (List.mem_cons_self c rest)
    have hrest : ∀ x ∈ rest, x.toNat ≤ 127 := fun x hx => hl x (List.mem_cons_of_mem _ hx)
    intro b
    cases b with
    | false =>
      have e1 : titleMap false (c :: rest) = Char.toUpper c :: titleMap (pyCased c) rest := by
        simp [titleMap, titleFull_ascii c hc]
      rw [e1]
      have e2 : titleMap false (Char.toUpper c :: titleMap (pyCased c) rest) =
          Char.toUpper (Char.toUpper c) ::
            titleMap (pyCased (Char.toUpper c)) (titleMap (pyCased c) rest) := by
        simp [titleMap, titleFull_ascii _ (toUpper_ascii c hc)]
      rw [e2, toUpper_idem, pyCased_toUpper, ih hrest]
    | true =>
      have e1 : titleMap true (c :: rest) = Char.toLower c :: titleMap (pyCased c) rest := by
        simp [titleMap, lowerFull_ascii c hc]
      rw [e1]
      have e2 : titleMap true (Char.toLower c :: titleMap (pyCased c) rest) =
          Char.toLower (Char.toLower c) ::
            titleMap (pyCased (Char.toLower c)) (titleMap (pyCased c) rest) := by
        simp [titleMap, lowerFull_ascii _ (toLower_ascii c hc)]
      rw [e2, toLower_idem, pyCased_toLower, ih hrest]

/-! ## Claims -/

/-- Counterexample to claim C8: `str.title` is not idempotent over its full
Unicode domain.  `"AİB".title()` lowercases `İ` (after the cased `A`) to
`i` followed by the combining dot above U+0307; U+0307 is not cased, so a
second `title` pass uppercases the following `b` again:
`title "AİB" = "Ai" + U+0307 + "b"` but
`title (title "AİB") = "Ai" + U+0307 + "B"`. -/
theorem title_not_idempotent_unicode :
    title (String.mk ['A', 'İ', 'B']) = String.mk ['A', 'i', Char.ofNat 775, 'b'] ∧
    title (title (String.mk ['A', 'İ', 'B'])) = String.mk ['A', 'i', Char.ofNat 775, 'B'] ∧
    title (title (String.mk ['A', 'İ', 'B'])) ≠ title (String.mk ['A', 'İ', 'B']) := by
  refine ⟨by decide, by decide, by decide⟩

/-- Claim C8 as amended: the title-casing operation applied to brand and
street strings is idempotent on ASCII strings: for every string `s` whose
characters are all ASCII, `title (title s) = title s`; in particular
title-casing an already title-cased ASCII brand or street yields the same
string.  (Over full Unicode `str.title` is not idempotent — see the
counterexample.) -/
theorem title_idempotent_ascii (s : String) (h : ∀ c ∈ s.data, c.toNat ≤ 127) :
    title (title s) = title s :=
  congrArg String.mk (titleMap_idem_ascii s.data h false)

/-- Concrete instance of the amended claim C8 at the spec's example street
rendering. -/
theorem title_idempotent_ascii_witness :
    (∀ c ∈ ("hauptstrasse 12b" : String).data, c.toNat ≤ 127) ∧
    title (title "hauptstrasse 12b") = title "hauptstrasse 12b" :=
  ⟨by decide, title_idempotent_ascii "hauptstrasse 12b" (by decide)⟩

/-- Claim C10: every call to `update` leaves all sensor fields other than the
state and the attributes unchanged — the name, icon, unit of measurement,
device class, and the configured api key, latitude, longitude, radius, and
fuel type are identical before and after every update, for every fetch
result. -/
theorem update_preserves_config (s : TankerkoenigSensor) (net : HttpOutcome) :
    (s.update net).1.api_key = s.api_key ∧
    (s.update net).1.name = s.name ∧
    (s.update net).1.latitude = s.latitude ∧
    (s.update net).1.longitude = s.longitude ∧
    (s.update net).1.radius = s.radius ∧
    (s.update net).1.fuel_type = s.fuel_type ∧
    (s.update net).1.icon = s.icon ∧
    (s.update net).1.unit_of_measurement = s.unit_of_measurement ∧
    (s.update net).1.device_class = s.device_class :=
  ⟨rfl, rfl, rfl, rfl, rfl, rfl, rfl, rfl, rfl⟩

/-- Claim C3: two calls to the throttled `update` on the same sensor instance
separated by less than the configured 10-minute interval perform at most one
network fetch: the first call runs the body, the second performs no network
call and leaves the observed state exactly as the first call left it. -/
theorem throttle_single_fetch (s0 : SensorState) (r1 r2 : Json) (t1 t2 : Nat)
    (h : t2 - t1 < MIN_TIME_BETWEEN_UPDATES) :
    (throttledUpdate t1 r1 ⟨none, s0⟩).2 = true ∧
    throttledUpdate t2 r2 (throttledUpdate t1 r1 ⟨none, s0⟩).1 =
      ((throttledUpdate t1 r1 ⟨none, s0⟩).1, false) := by
  refine ⟨rfl, ?_⟩
  show throttledUpdate t2 r2 ⟨some t1, (updateCC r1).sensor⟩ = _
  simp [throttledUpdate, h]

/-- Concrete instance of the throttle property: calls at `t = 0` and `t = 1`
seconds with a failing fetch both times. -/
theorem throttle_single_fetch_witness :
    1 - 0 < MIN_TIME_BETWEEN_UPDATES ∧
    ((throttledUpdate 0 Json.null ⟨none, cleared⟩).2 = true ∧
     throttledUpdate 1 Json.null (throttledUpdate 0 Json.null ⟨none, cleared⟩).1 =
       ((throttledUpdate 0 Json.null ⟨none, cleared⟩).1, false)) :=
  ⟨by decide, throttle_single_fetch cleared Json.null Json.null 0 1 (by decide)⟩

theorem truthy_of_pyIndexStr_ok {r : Json} {key : String} {v : Json}
    (h : pyIndexStr r key = .ok v) : truthy r = true := by
  cases r with
  | obj members =>
    cases members with
    | nil => simp [pyIndexStr, lookupMember] at h
    | cons m rest => simp [truthy]
  | null => simp [pyIndexStr] at h
  | bool b => simp [pyIndexStr] at h
  | num q => simp [pyIndexStr] at h
  | str s => simp [pyIndexStr] at h
  | arr elems => simp [pyIndexStr] at h

theorem station0Field_cons (st : Json) (rest : List Json) (key : String) :
    station0Field (.arr (st :: rest)) key = pyIndexStr st key := rfl

theorem populate_spec (st : Json) (rest : List Json) (price : Json)
    (brand street houseNumber : String) (isOpen : Bool) (latV lngV : Json)
    (hp : pyIndexStr st "price" = .ok price)
    (hb : pyIndexStr st "brand" = .ok (.str brand))
    (hs : pyIndexStr st "street" = .ok (.str street))
    (hh : pyIndexStr st "houseNumber" = .ok (.str houseNumber))
    (ho : pyIndexStr st "isOpen" = .ok (.bool isOpen))
    (hla : pyIndexStr st "lat" = .ok latV)
    (hln : pyIndexStr st "lng" = .ok lngV) :
    populate (.arr (st :: rest)) =
      ({ state := price,
         attributes := [("brand", .str (title brand)),
                        ("address", .str (title street ++ houseNumber)),
                        ("status", .str (if isOpen then "open" else "closed")),
                        ("latitude", latV), ("longitude", lngV),
                        ("attribution", .str ATTRIBUTION)] }, none) := by
  simp only [populate, station0Field_cons, hp, hb, hs, hh, ho, hla, hln,
    Except.bind, pyTitle, pyAdd, truthy]

/-- Claim C1: for every fetch result that is a valid response containing a
non-empty station list, `update` sets the sensor state to
`stations[0]["price"]` exactly, and sets the attributes to: brand =
title-cased brand, address = title-cased street concatenated with the house
number with no separator, status = `"open"` if the `isOpen` flag is true and
`"closed"` otherwise, latitude and longitude from the station record, and
the fixed attribution string. -/
theorem updateCC_valid_response (result st : Json) (rest : List Json) (price : Json)
    (brand street houseNumber : String) (isOpen : Bool) (latV lngV : Json)
    (hstations : pyIndexStr result "stations" = .ok (.arr (st :: rest)))
    (hp : pyIndexStr st "price" = .ok price)
    (hb : pyIndexStr st "brand" = .ok (.str brand))
    (hs : pyIndexStr st "street" = .ok (.str street))
    (hh : pyIndexStr st "houseNumber" = .ok (.str houseNumber))
    (ho : pyIndexStr st "isOpen" = .ok (.bool isOpen))
    (hla : pyIndexStr st "lat" = .ok latV)
    (hln : pyIndexStr st "lng" = .ok lngV) :
    updateCC result =
      { sensor := { state := price,
                    attributes := [("brand", .str (title brand)),
                                   ("address", .str (title street ++ houseNumber)),
                                   ("status", .str (if isOpen then "open" else "closed")),
                                   ("latitude", latV), ("longitude", lngV),
                                   ("attribution", .str ATTRIBUTION)] },
        logs := [], err := none } := by
  have ht := truthy_of_pyIndexStr_ok hstations
  rw [updateCC, if_pos ht, hstations]
  show (if truthy (.arr (st :: rest)) = true then _ else _) = _
  rw [if_pos (by simp [truthy]), populate_spec st rest price brand street houseNumber
    isOpen latV lngV hp hb hs hh ho hla hln]

/-- Concrete instance of claim C1 at the spec's worked example: station
`price 1.679, brand "aral", street "hauptstrasse", houseNumber "12",
isOpen true, lat 50.1, lng 8.6` yields state `1.679` and attributes
`brand "Aral", address "Hauptstrasse12", status "open", latitude 50.1,
longitude 8.6` plus the attribution. -/
theorem updateCC_valid_response_witness :
    pyIndexStr
        (Json.obj [("ok", .bool true),
                   ("stations", .arr [Json.obj
                     [("price", .num 1.679), ("brand", .str "aral"),
                      ("street", .str "hauptstrasse"), ("houseNumber", .str "12"),
                      ("isOpen", .bool true), ("lat", .num 50.1), ("lng", .num 8.6)]])])
        "stations"
      = .ok (.arr [Json.obj
          [("price", .num 1.679), ("brand", .str "aral"),
           ("street", .str "hauptstrasse"), ("houseNumber", .str "12"),
           ("isOpen", .bool true), ("lat", .num 50.1), ("lng", .num 8.6)]]) ∧
    updateCC
        (Json.obj [("ok", .bool true),
                   ("stations", .arr [Json.obj
                     [("price", .num 1.679), ("brand", .str "aral"),
                      ("street", .str "hauptstrasse"), ("houseNumber", .str "12"),
                      ("isOpen", .bool true), ("lat", .num 50.1), ("lng", .num 8.6)]])]) =
      { sensor := { state := .num 1.679,
                    attributes := [("brand", .str "Aral"),
                                   ("address", .str "Hauptstrasse12"),
                                   ("status", .str "open"),
                                   ("latitude", .num 50.1), ("longitude", .num 8.6),
                                   ("attribution", .str ATTRIBUTION)] },
        logs := [], err := none } :=
  ⟨rfl,
   updateCC_valid_response
     (Json.obj [("ok", .bool true),
                ("stations", .arr [Json.obj
                  [("price", .num 1.679), ("brand", .str "aral"),
                   ("street", .str "hauptstrasse"), ("houseNumber", .str "12"),
                   ("isOpen", .bool true), ("lat", .num 50.1), ("lng", .num 8.6)]])])
     (Json.obj [("price", .num 1.679), ("brand", .str "aral"),
                ("street", .str "hauptstrasse"), ("houseNumber", .str "12"),
                ("isOpen", .bool true), ("lat", .num 50.1), ("lng", .num 8.6)])
     [] (.num 1.679) "aral" "hauptstrasse" "12" true
     (.num 50.1) (.num 8.6) rfl rfl rfl rfl rfl rfl rfl rfl⟩

theorem populate_state (stations price : Json)
    (hp : station0Field stations "price" = .ok price) :
    (populate stations).1.state = price := by
  simp only [populate, hp]
  repeat first
  | rfl
  | split

/-- Claim C9: the `custom_components` variant never consults the `"ok"`
envelope flag — for every fetch result containing a non-empty `"stations"`
list, `update` populates the state from `stations[0]` even when the
result's `"ok"` field is `false`; whereas in the `src/sensor.py` variant, a
parsed response whose `"ok"` field is `false` leaves state and attributes
cleared even when a non-empty `"stations"` list is present. -/
theorem ok_flag_variant_divergence :
    (∀ (result st : Json) (rest : List Json) (price : Json),
        pyIndexStr result "ok" = .ok (.bool false) →
        pyIndexStr result "stations" = .ok (.arr (st :: rest)) →
        pyIndexStr st "price" = .ok price →
        (updateCC result).sensor.state = price) ∧
    (∀ (raw : String) (j : Json), raw ≠ "" →
        pyIndexStr j "ok" = .ok (.bool false) →
        updateRoot (.text raw (.ok j)) = { sensor := cleared, logs := [], err := none }) := by
  constructor
  · intro result st rest price hok hs hp
    have ht := truthy_of_pyIndexStr_ok hok
    have hupd : updateCC result =
        { sensor := (populate (.arr (st :: rest))).1, logs := [],
          err := (populate (.arr (st :: rest))).2 } := by
      rw [updateCC, if_pos ht, hs]
      show (if truthy (.arr (st :: rest)) = true then _ else _) = _
      rw [if_pos (by simp [truthy])]
    rw [hupd]
    exact populate_state _ price ((station0Field_cons st rest "price").trans hp)
  · intro raw j hraw hok
    simp [updateRoot, hok, truthy, hraw]

/-- Concrete instance of claim C9: a response with `"ok": false` and one
station of price `1.5` — the `custom_components` variant reports `1.5`, the
top-level variant stays cleared. -/
theorem ok_flag_variant_divergence_witness :
    (updateCC (Json.obj [("ok", .bool false),
        ("stations", .arr [Json.obj [("price", .num 1.5)]])])).sensor.state = .num 1.5 ∧
    updateRoot (.text "reply" (.ok (Json.obj [("ok", .bool false),
        ("stations", .arr [Json.obj [("price", .num 1.5)]])]))) =
      { sensor := cleared, logs := [], err := none } :=
  ⟨ok_flag_variant_divergence.1
      (Json.obj [("ok", .bool false), ("stations", .arr [Json.obj [("price", .num 1.5)]])])
      (Json.obj [("price", .num 1.5)]) [] (.num 1.5) rfl rfl rfl,
   ok_flag_variant_divergence.2 "reply"
      (Json.obj [("ok", .bool false), ("stations", .arr [Json.obj [("price", .num 1.5)]])])
      (by decide) rfl⟩

theorem populate_of_err_none (stations : Json) (h : (populate stations).2 = none) :
    ∃ price brandVal streetVal houseVal addressVal openFlag latVal lngVal,
      station0Field stations "price" = .ok price ∧
      (station0Field stations "brand").bind pyTitle = .ok brandVal ∧
      (station0Field stations "street").bind pyTitle = .ok streetVal ∧
      station0Field stations "houseNumber" = .ok houseVal ∧
      pyAdd streetVal houseVal = .ok addressVal ∧
      station0Field stations "isOpen" = .ok openFlag ∧
      station0Field stations "lat" = .ok latVal ∧
      station0Field stations "lng" = .ok lngVal ∧
      populate stations =
        ({ state := price,
           attributes := [("brand", brandVal), ("address", addressVal),
                          ("status", Json.str (if truthy openFlag then "open" else "closed")),
                          ("latitude", latVal), ("longitude", lngVal),
                          ("attribution", Json.str ATTRIBUTION)] }, none) := by
  cases h1 : station0Field stations "price" with
  | error e => simp [populate, h1] at h
  | ok price =>
  cases h2 : (station0Field stations "brand").bind pyTitle with
  | error e => simp [populate, h1, h2] at h
  | ok brandVal =>
  cases h3 : (station0Field stations "street").bind pyTitle with
  | error e => simp [populate, h1, h2, h3] at h
  | ok streetVal =>
  cases h4 : station0Field stations "houseNumber" with
  | error e => simp [populate, h1, h2, h3, h4] at h
  | ok houseVal =>
  cases h5 : pyAdd streetVal houseVal with
  | error e => simp [populate, h1, h2, h3, h4, h5] at h
  | ok addressVal =>
  cases h6 : station0Field stations "isOpen" with
  | error e => simp [populate, h1, h2, h3, h4, h5, h6] at h
  | ok openFlag =>
  cases h7 : station0Field stations "lat" with
  | error e => simp [populate, h1, h2, h3, h4, h5, h6, h7] at h
  | ok latVal =>
  cases h8 : station0Field stations "lng" with
  | error e => simp [populate, h1, h2, h3, h4, h5, h6, h7, h8] at h
  | ok lngVal =>
  exact ⟨price, brandVal, streetVal, houseVal, addressVal, openFlag, latVal, lngVal,
    rfl, rfl, rfl, rfl, h5, rfl, rfl, rfl,
    by simp [populate, h1, h2, h3, h4, h5, h6, h7, h8]⟩

/-- Counterexample to claim C2: the fetch result
`{"stations": [{"price": 1.679}]}` (first station record lacking the
`"brand"` key) leaves the sensor with state `1.679` (not `None`) but an
empty attribute dictionary, and `update` aborts with an uncaught `KeyError`
— a partially populated state/attribute pair. -/
theorem updateCC_partial_on_malformed_station :
    (updateCC (Json.obj [("stations", .arr [Json.obj [("price", .num 1.679)]])])).sensor.state
        = .num 1.679 ∧
    Json.num 1.679 ≠ Json.null ∧
    (updateCC (Json.obj [("stations", .arr [Json.obj [("price", .num 1.679)]])])).sensor.attributes
        = [] ∧
    (updateCC (Json.obj [("stations", .arr [Json.obj [("price", .num 1.679)]])])).err
        = some .keyError :=
  ⟨rfl, fun hc => Json.noConfusion hc, rfl, rfl⟩

/-- Claim C2 as amended: for every fetch result, if `update` completes
without propagating an exception then the sensor's state and attributes are
consistent — either the state is the price of the first station record with
the attributes fully populated from that same record, or the state is `None`
and the attribute dictionary is empty.  (A station record missing expected
keys makes `update` raise, which can leave a partial pair — see the
counterexample.) -/
theorem updateCC_no_partial_state (result : Json) (h : (updateCC result).err = none) :
    (updateCC result).sensor = cleared ∨
    ∃ stations price brandVal streetVal houseVal addressVal openFlag latVal lngVal,
      pyIndexStr result "stations" = .ok stations ∧
      station0Field stations "price" = .ok price ∧
      (station0Field stations "brand").bind pyTitle = .ok brandVal ∧
      (station0Field stations "street").bind pyTitle = .ok streetVal ∧
      station0Field stations "houseNumber" = .ok houseVal ∧
      pyAdd streetVal houseVal = .ok addressVal ∧
      station0Field stations "isOpen" = .ok openFlag ∧
      station0Field stations "lat" = .ok latVal ∧
      station0Field stations "lng" = .ok lngVal ∧
      (updateCC result).sensor =
        { state := price,
          attributes := [("brand", brandVal), ("address", addressVal),
                         ("status", Json.str (if truthy openFlag then "open" else "closed")),
                         ("latitude", latVal), ("longitude", lngVal),
                         ("attribution", Json.str ATTRIBUTION)] } := by
  by_cases ht : truthy result
  · cases hs : pyIndexStr result "stations" with
    | error e =>
      cases e with
      | keyError => left; simp [updateCC, ht, hs]
      | typeError => simp [updateCC, ht, hs] at h
      | indexError => simp [updateCC, ht, hs] at h
      | attributeError => simp [updateCC, ht, hs] at h
    | ok stations =>
      by_cases hts : truthy stations
      · have h2 : (populate stations).2 = none := by
          simpa [updateCC, ht, hs, hts] using h
        obtain ⟨price, brandVal, streetVal, houseVal, addressVal, openFlag, latVal, lngVal,
          p1, p2, p3, p4, p5, p6, p7, p8, p9⟩ := populate_of_err_none stations h2
        right
        refine ⟨stations, price, brandVal, streetVal, houseVal, addressVal, openFlag,
          latVal, lngVal, rfl, p1, p2, p3, p4, p5, p6, p7, p8, ?_⟩
        simp [updateCC, ht, hs, hts, p9]
      · left; simp [updateCC, ht, hs, hts]
  · left; simp [updateCC, ht]

/-- Concrete instance of the amended claim C2: the result
`{"stations": []}` completes without exception and leaves the cleared pair. -/
theorem updateCC_no_partial_state_witness :
    (updateCC (Json.obj [("stations", .arr [])])).err = none ∧
    ((updateCC (Json.obj [("stations", .arr [])])).sensor = cleared ∨
     ∃ stations price brandVal streetVal houseVal addressVal openFlag latVal lngVal,
       pyIndexStr (Json.obj [("stations", .arr [])]) "stations" = .ok stations ∧
       station0Field stations "price" = .ok price ∧
       (station0Field stations "brand").bind pyTitle = .ok brandVal ∧
       (station0Field stations "street").bind pyTitle = .ok streetVal ∧
       station0Field stations "houseNumber" = .ok houseVal ∧
       pyAdd streetVal houseVal = .ok addressVal ∧
       station0Field stations "isOpen" = .ok openFlag ∧
       station0Field stations "lat" = .ok latVal ∧
       station0Field stations "lng" = .ok lngVal ∧
       (updateCC (Json.obj [("stations", .arr [])])).sensor =
         { state := price,
           attributes := [("brand", brandVal), ("address", addressVal),
                          ("status", Json.str (if truthy openFlag then "open" else "closed")),
                          ("latitude", latVal), ("longitude", lngVal),
                          ("attribution", Json.str ATTRIBUTION)] }) :=
  ⟨rfl, updateCC_no_partial_state (Json.obj [("stations", .arr [])]) rfl⟩

/-- Counterexample to claim C5: in the `src/sensor.py` variant, the parsed
non-empty envelope `{"ok": true}` lacks the `"stations"` field, and `update`
propagates an uncaught `KeyError` (only `ValueError` is caught) without
logging anything — it does not log an error and does not terminate cleanly. -/
theorem updateRoot_missing_stations_uncaught :
    updateRoot (.text "reply" (.ok (Json.obj [("ok", .bool true)]))) =
      { sensor := cleared, logs := [], err := some .keyError } := rfl

/-- Claim C5 as amended: in the `custom_components` variant, for every fetch
result that is a non-empty object lacking the `"stations"` member, `update`
logs an error, leaves the sensor state cleared, and propagates no exception.
(The `src/sensor.py` variant violates the original claim: there the missing
field escapes as an uncaught `KeyError` — see the counterexample.) -/
theorem updateCC_missing_stations_logs_and_clears
    (members : List (String × Json)) (hne : members ≠ [])
    (hmiss : lookupMember members "stations" = none) :
    updateCC (Json.obj members) =
      { sensor := cleared,
        logs := [⟨.error, "Erroneous result found when expecting list of stations: %s"⟩],
        err := none } := by
  have ht : truthy (Json.obj members) = true := by
    cases members with
    | nil => exact absurd rfl hne
    | cons m rest => simp [truthy]
  simp [updateCC, ht, pyIndexStr, hmiss]

/-- Concrete instance of the amended claim C5: the envelope `{"ok": true}`
handed to the `custom_components` variant. -/
theorem updateCC_missing_stations_logs_and_clears_witness :
    ([(("ok" : String), Json.bool true)] ≠ ([] : List (String × Json))) ∧
    lookupMember [("ok", Json.bool true)] "stations" = none ∧
    updateCC (Json.obj [("ok", Json.bool true)]) =
      { sensor := cleared,
        logs := [⟨.error, "Erroneous result found when expecting list of stations: %s"⟩],
        err := none } :=
  ⟨by simp, rfl,
   updateCC_missing_stations_logs_and_clears [("ok", Json.bool true)] (by simp) rfl⟩

/-- Counterexample to claim C6: the error kind "empty station list"
(`{"stations": []}` under a successful fetch) resolves the cycle by clearing
the sensor state but logs no message at all — at no level. -/
theorem updateCycleCC_empty_station_list_silent :
    updateCycleCC (.response 200 (.ok (Json.obj [("stations", .arr [])]))) =
      { sensor := cleared, logs := [], err := none } := rfl

/-- Claim C6 as amended: in the `custom_components` cycle, a transport
failure, a 4xx/5xx HTTP status, and malformed JSON are each logged and
resolved by clearing the sensor state with no exception; a response object
missing the `"stations"` field is logged and cleared likewise; an empty
station list clears the state for the cycle but emits no log message.  (In
`src/sensor.py`, a missing field instead escapes as an uncaught `KeyError`.) -/
theorem updateCycleCC_error_kinds :
    (updateCycleCC .transportError =
      { sensor := cleared,
        logs := [⟨.error, "Error fetching data: %s failed with %s"⟩,
                 ⟨.error, "Empty result found when expecting list of stations"⟩],
        err := none }) ∧
    (∀ (status : Nat) (body : Except Unit Json), 400 ≤ status → status < 600 →
      updateCycleCC (.response status body) =
        { sensor := cleared,
          logs := [⟨.error, "Error fetching data: %s failed with %s"⟩,
                   ⟨.error, "Empty result found when expecting list of stations"⟩],
          err := none }) ∧
    (∀ status : Nat, ¬(400 ≤ status ∧ status < 600) →
      updateCycleCC (.response status (.error ())) =
        { sensor := cleared,
          logs := [⟨.error, "Error parsing data: %s failed with %s"⟩,
                   ⟨.error, "Empty result found when expecting list of stations"⟩],
          err := none }) ∧
    (∀ (status : Nat) (members : List (String × Json)),
        ¬(400 ≤ status ∧ status < 600) → members ≠ [] →
        lookupMember members "stations" = none →
      updateCycleCC (.response status (.ok (Json.obj members))) =
        { sensor := cleared,
          logs := [⟨.error, "Erroneous result found when expecting list of stations: %s"⟩],
          err := none }) ∧
    (∀ status : Nat, ¬(400 ≤ status ∧ status < 600) →
      updateCycleCC (.response status (.ok (Json.obj [("stations", .arr [])]))) =
        { sensor := cleared, logs := [], err := none }) := by
  refine ⟨rfl, ?_, ?_, ?_, ?_⟩
  · intro status body h1 h2
    have hg : 400 ≤ status ∧ status < 600 := ⟨h1, h2⟩
    simp [updateCycleCC, get_stations, hg, updateCC, truthy]
  · intro status hneg
    simp [updateCycleCC, get_stations, hneg, updateCC, truthy]
  · intro status members hneg hne hmiss
    have ht : truthy (Json.obj members) = true := by
      cases members with
      | nil => exact absurd rfl hne
      | cons m rest => simp [truthy]
    simp [updateCycleCC, get_stations, hneg, updateCC, ht, pyIndexStr, hmiss]
  · intro status hneg
    simp [updateCycleCC, get_stations, hneg, updateCC, truthy, pyIndexStr, lookupMember]

/-- Concrete instances of the amended claim C6, one per error kind. -/
theorem updateCycleCC_error_kinds_witness :
    (400 ≤ 404 ∧ 404 < 600) ∧ ¬(400 ≤ 200 ∧ 200 < 600) ∧
    updateCycleCC (.response 404 (.ok Json.null)) =
      { sensor := cleared,
        logs := [⟨.error, "Error fetching data: %s failed with %s"⟩,
                 ⟨.error, "Empty result found when expecting list of stations"⟩],
        err := none } ∧
    updateCycleCC (.response 200 (.error ())) =
      { sensor := cleared,
        logs := [⟨.error, "Error parsing data: %s failed with %s"⟩,
                 ⟨.error, "Empty result found when expecting list of stations"⟩],
        err := none } ∧
    updateCycleCC (.response 200 (.ok (Json.obj [("ok", .bool true)]))) =
      { sensor := cleared,
        logs := [⟨.error, "Erroneous result found when expecting list of stations: %s"⟩],
        err := none } ∧
    updateCycleCC (.response 203 (.ok (Json.obj [("stations", .arr [])]))) =
      { sensor := cleared, logs := [], err := none } :=
  ⟨by norm_num, by norm_num,
   updateCycleCC_error_kinds.2.1 404 (.ok Json.null) (by norm_num) (by norm_num),
   updateCycleCC_error_kinds.2.2.1 200 (by norm_num),
   updateCycleCC_error_kinds.2.2.2.1 200 [("ok", .bool true)] (by norm_num) (by simp) rfl,
   updateCycleCC_error_kinds.2.2.2.2 203 (by norm_num)⟩

/-- Counterexample to claim C4: status 300 is not a 2xx status, yet
`raise_for_status` raises only for 400–599, so `get_stations` returns the
parsed body rather than yielding no data. -/
theorem get_stations_non2xx_returns_body :
    get_stations (.response 300 (.ok (Json.obj [("ok", .bool true)]))) =
      (Json.obj [("ok", .bool true)], []) ∧
    Json.obj [("ok", .bool true)] ≠ Json.null :=
  ⟨rfl, fun hc => Json.noConfusion hc⟩

/-- Claim C4 as amended: `get_stations` signals failure by returning `None`
(and logging, with no exception escaping) on a transport failure, on a
client- or server-error HTTP status (4xx/5xx — the statuses
`raise_for_status` raises for), and on a JSON parse failure; on any other
status with parseable JSON it returns the parsed body. -/
theorem get_stations_error_handling :
    (get_stations .transportError =
      (Json.null, [⟨.error, "Error fetching data: %s failed with %s"⟩])) ∧
    (∀ (status : Nat) (body : Except Unit Json), 400 ≤ status → status < 600 →
      get_stations (.response status body) =
        (Json.null, [⟨.error, "Error fetching data: %s failed with %s"⟩])) ∧
    (∀ status : Nat, ¬(400 ≤ status ∧ status < 600) →
      get_stations (.response status (.error ())) =
        (Json.null, [⟨.error, "Error parsing data: %s failed with %s"⟩])) ∧
    (∀ (status : Nat) (j : Json), ¬(400 ≤ status ∧ status < 600) →
      get_stations (.response status (.ok j)) = (j, [])) := by
  refine ⟨rfl, ?_, ?_, ?_⟩
  · intro status body h1 h2
    have hg : 400 ≤ status ∧ status < 600 := ⟨h1, h2⟩
    simp [get_stations, hg]
  · intro status hneg
    simp [get_stations, hneg]
  · intro status j hneg
    simp [get_stations, hneg]

/-- Concrete instances of the amended claim C4: statuses 500, 200 with a
parse failure, and 200 with a parseable body. -/
theorem get_stations_error_handling_witness :
    (400 ≤ 500 ∧ 500 < 600) ∧ ¬(400 ≤ 200 ∧ 200 < 600) ∧
    get_stations (.response 500 (.ok Json.null)) =
      (Json.null, [⟨.error, "Error fetching data: %s failed with %s"⟩]) ∧
    get_stations (.response 200 (.error ())) =
      (Json.null, [⟨.error, "Error parsing data: %s failed with %s"⟩]) ∧
    get_stations (.response 200 (.ok (Json.bool true))) = (Json.bool true, []) :=
  ⟨by norm_num, by norm_num,
   get_stations_error_handling.2.1 500 (.ok Json.null) (by norm_num) (by norm_num),
   get_stations_error_handling.2.2.1 200 (by norm_num),
   get_stations_error_handling.2.2.2 200 (Json.bool true) (by norm_num)⟩

theorem splitOnChar_ne_nil (sep : Char) (l : List Char) : splitOnChar sep l ≠ [] := by
  induction l with
  | nil => simp [splitOnChar]
  | cons c rest ih =>
    simp only [splitOnChar]
    cases h : splitOnChar sep rest with
    | nil => simp
    | cons g gs => by_cases hc : c = sep <;> simp [hc]

theorem splitOnChar_append (sep : Char) (a b : List Char) (ha : sep ∉ a) :
    splitOnChar sep (a ++ sep :: b) = a :: splitOnChar sep b := by
  induction a with
  | nil =>
    simp only [List.nil_append]
    cases h : splitOnChar sep b with
    | nil => exact absurd h (splitOnChar_ne_nil sep b)
    | cons g gs => simp [splitOnChar, h]
  | cons c a ih =>
    have hc : c ≠ sep := by
      intro e
      exact ha (by simp [e])
    have ha2 : sep ∉ a := fun hm => ha (List.mem_cons_of_mem _ hm)
    rw [List.cons_append, splitOnChar, ih ha2]
    simp [hc]

theorem splitOnChar_no_sep (sep : Char) (a : List Char) (ha : sep ∉ a) :
    splitOnChar sep a = [a] := by
  induction a with
  | nil => rfl
  | cons c a ih =>
    have hc : c ≠ sep := by
      intro e
      exact ha (by simp [e])
    have ha2 : sep ∉ a := fun hm => ha (List.mem_cons_of_mem _ hm)
    simp [splitOnChar, ih ha2, hc]

theorem notMem_append_cons {c e : Char} {fixedPart varPart : List Char}
    (h1 : c ∉ fixedPart) (h2 : c ≠ e) (h3 : c ∉ varPart) :
    c ∉ fixedPart ++ e :: varPart := by
  intro hmem
  rcases List.mem_append.mp hmem with hm | hm
  · exact h1 hm
  · rcases List.mem_cons.mp hm with hm | hm
    · exact h2 hm
    · exact h3 hm

/-- Claim C7: every network fetch issues a GET request to the fixed endpoint
`https://creativecommons.tankerkoenig.de/json/list.php` whose query string
contains exactly the parameters `apikey`, `lat`, `lng`, `rad`, `type` (the
configured fuel type) and `sort=price`, with TLS certificate verification
enabled and a request timeout of 10 seconds.  (Stated for parameter
renderings free of the URL metacharacters `&`, `=`, `?`, which every
numeric rendering and ordinary api key satisfies.) -/
theorem get_stations_request_spec (apikey lat lng rad fuelType : String)
    (hk1 : '&' ∉ apikey.data) (hk2 : '=' ∉ apikey.data) (hk3 : '?' ∉ apikey.data)
    (hla1 : '&' ∉ lat.data) (hla2 : '=' ∉ lat.data) (hla3 : '?' ∉ lat.data)
    (hlo1 : '&' ∉ lng.data) (hlo2 : '=' ∉ lng.data) (hlo3 : '?' ∉ lng.data)
    (hr1 : '&' ∉ rad.data) (hr2 : '=' ∉ rad.data) (hr3 : '?' ∉ rad.data)
    (hf1 : '&' ∉ fuelType.data) (hf2 : '=' ∉ fuelType.data) (hf3 : '?' ∉ fuelType.data) :
    queryParams (get_stations_request apikey lat lng rad fuelType).url =
      [("apikey", apikey), ("lat", lat), ("lng", lng), ("rad", rad),
       ("type", fuelType), ("sort", "price")] ∧
    urlPath (get_stations_request apikey lat lng rad fuelType).url =
      "https://creativecommons.tankerkoenig.de/json/list.php" ∧
    (get_stations_request apikey lat lng rad fuelType).method = "GET" ∧
    (get_stations_request apikey lat lng rad fuelType).verify = true ∧
    (get_stations_request apikey lat lng rad fuelType).timeoutSeconds = 10 := by
  have hdata : (get_stations_request apikey lat lng rad fuelType).url.data =
      "https://creativecommons.tankerkoenig.de/json/list.php".data ++ '?' ::
        (("apikey".data ++ '=' :: apikey.data) ++ '&' ::
         (("lat".data ++ '=' :: lat.data) ++ '&' ::
          (("lng".data ++ '=' :: lng.data) ++ '&' ::
           (("rad".data ++ '=' :: rad.data) ++ '&' ::
            (("type".data ++ '=' :: fuelType.data) ++ '&' ::
             ("sort".data ++ '=' :: "price".data)))))) := by
    simp [get_stations_request, resource, listEndpoint, List.append_assoc]
  have hq : '?' ∉ (("apikey".data ++ '=' :: apikey.data) ++ '&' ::
         (("lat".data ++ '=' :: lat.data) ++ '&' ::
          (("lng".data ++ '=' :: lng.data) ++ '&' ::
           (("rad".data ++ '=' :: rad.data) ++ '&' ::
            (("type".data ++ '=' :: fuelType.data) ++ '&' ::
             ("sort".data ++ '=' :: "price".data)))))) :=
    notMem_append_cons (notMem_append_cons (by decide) (by decide) hk3) (by decide)
      (notMem_append_cons (notMem_append_cons (by decide) (by decide) hla3) (by decide)
        (notMem_append_cons (notMem_append_cons (by decide) (by decide) hlo3) (by decide)
          (notMem_append_cons (notMem_append_cons (by decide) (by decide) hr3) (by decide)
            (notMem_append_cons (notMem_append_cons (by decide) (by decide) hf3) (by decide)
              (by decide)))))
  refine ⟨?_, ?_, rfl, rfl, rfl⟩
  · rw [queryParams, hdata,
      splitOnChar_append '?' "https://creativecommons.tankerkoenig.de/json/list.php".data _
        (by decide),
      splitOnChar_no_sep '?' _ hq]
    dsimp only
    rw [splitOnChar_append '&' _ _ (notMem_append_cons (by decide) (by decide) hk1),
      splitOnChar_append '&' _ _ (notMem_append_cons (by decide) (by decide) hla1),
      splitOnChar_append '&' _ _ (notMem_append_cons (by decide) (by decide) hlo1),
      splitOnChar_append '&' _ _ (notMem_append_cons (by decide) (by decide) hr1),
      splitOnChar_append '&' _ _ (notMem_append_cons (by decide) (by decide) hf1),
      splitOnChar_no_sep '&' _ (by decide)]
    simp only [List.map_cons, List.map_nil]
    rw [splitOnChar_append '=' "apikey".data _ (by decide), splitOnChar_no_sep '=' _ hk2,
      splitOnChar_append '=' "lat".data _ (by decide), splitOnChar_no_sep '=' _ hla2,
      splitOnChar_append '=' "lng".data _ (by decide), splitOnChar_no_sep '=' _ hlo2,
      splitOnChar_append '=' "rad".data _ (by decide), splitOnChar_no_sep '=' _ hr2,
      splitOnChar_append '=' "type".data _ (by decide), splitOnChar_no_sep '=' _ hf2,
      splitOnChar_append '=' "sort".data "price".data (by decide),
      splitOnChar_no_sep '=' "price".data (by decide)]
  · rw [urlPath, hdata,
      splitOnChar_append '?' "https://creativecommons.tankerkoenig.de/json/list.php".data _
        (by decide),
      splitOnChar_no_sep '?' _ hq]

/-- Concrete instance of claim C7: api key `testkey`, coordinates
`50.1`/`8.6`, radius `1.5`, fuel type `e10`. -/
theorem get_stations_request_spec_witness :
    ('&' ∉ "testkey".data ∧ '=' ∉ "testkey".data ∧ '?' ∉ "testkey".data) ∧
    ('&' ∉ "50.1".data ∧ '=' ∉ "50.1".data ∧ '?' ∉ "50.1".data) ∧
    ('&' ∉ "8.6".data ∧ '=' ∉ "8.6".data ∧ '?' ∉ "8.6".data) ∧
    ('&' ∉ "1.5".data ∧ '=' ∉ "1.5".data ∧ '?' ∉ "1.5".data) ∧
    ('&' ∉ "e10".data ∧ '=' ∉ "e10".data ∧ '?' ∉ "e10".data) ∧
    (queryParams (get_stations_request "testkey" "50.1" "8.6" "1.5" "e10").url =
      [("apikey", "testkey"), ("lat", "50.1"), ("lng", "8.6"), ("rad", "1.5"),
       ("type", "e10"), ("sort", "price")] ∧
     urlPath (get_stations_request "testkey" "50.1" "8.6" "1.5" "e10").url =
       "https://creativecommons.tankerkoenig.de/json/list.php" ∧
     (get_stations_request "testkey" "50.1" "8.6" "1.5" "e10").method = "GET" ∧
     (get_stations_request "testkey" "50.1" "8.6" "1.5" "e10").verify = true ∧
     (get_stations_request "testkey" "50.1" "8.6" "1.5" "e10").timeoutSeconds = 10) :=
  ⟨by decide, by decide, by decide, by decide, by decide,
   get_stations_request_spec "testkey" "50.1" "8.6" "1.5" "e10"
     (by decide) (by decide) (by decide) (by decide) (by decide) (by decide)
     (by decide) (by decide) (by decide) (by decide) (by decide) (by decide)
     (by decide) (by decide) (by decide)⟩
